import Mathlib

/-!
Verification of the SSPxCosecurity dashboard (src/app.py) against its
specification.  The Python program is shallowly embedded: pandas columns
become Lean lists, per-row values become Option-typed fields (none models
NA/NaN/None), and the single dashboard callback becomes a family of pure
functions over those lists.
-/

namespace SSPxCosecurity

/-! ## Hour extractor (extrair_hora_robusta, app.py lines 78-106)

The pandas code works column-wise; every branch acts row-wise, so the
embedding is per row.  A row value is an Option String (none models a
missing value / pd.NA in the string column).  The colon branch delegates
to pd.to_datetime, a library primitive; it is abstracted as a parameter
cp : String → Option Int giving the hour of the parsed clock time (none
when the parse coerces to NaT or the try/except swallows an error). -/

/-- Models the pandas str.strip applied at line 86: drops leading and
trailing whitespace characters. -/
def estripa (s : String) : String :=
  ⟨((s.data.dropWhile Char.isWhitespace).reverse.dropWhile Char.isWhitespace).reverse⟩

/-- Models s.str.contains of a colon at line 87. -/
def temDoisPontos (s : String) : Bool :=
  s.data.contains ':'

/-- Models str.replace of all non-digit characters by the empty string
(line 97): keeps exactly the digit characters. -/
def digitsOnly (s : String) : String :=
  ⟨s.data.filter Char.isDigit⟩

/-- Models str.slice from position 0 to 2 (lines 100 and 102): the first
two characters. -/
def slice02 (s : String) : String :=
  ⟨s.data.take 2⟩

/-- Models pd.to_numeric applied to a digit-only string: the empty string
coerces to NA, otherwise the decimal value. -/
def parseDigits (d : String) : Option Int :=
  if d.data.isEmpty then none
  else some (d.data.foldl (fun n c => n * 10 + ((c.toNat : Int) - 48)) 0)

/-- The branch of extrair_hora_robusta for rows without a colon
(lines 95-104): strip non-digits, then pick by digit count.  The three
masks (len at least 6, len 3 to 5, len at most 2) are disjoint and
exhaustive; a row matching none would remain NA. -/
def horaSemColon (t : String) : Option Int :=
  if 6 ≤ (digitsOnly t).length then parseDigits (slice02 (digitsOnly t))
  else if 3 ≤ (digitsOnly t).length ∧ (digitsOnly t).length ≤ 5 then
    parseDigits (slice02 (digitsOnly t))
  else if (digitsOnly t).length ≤ 2 then parseDigits (digitsOnly t)
  else none

/-- The per-row raw hour before range validation (lines 86-104): strip,
then either the clock-time parse (colon present) or the digit heuristics. -/
def horaBruta (cp : String → Option Int) (s : String) : Option Int :=
  let t := estripa s
  if temDoisPontos t then cp t else horaSemColon t

/-- The range validation of lines 105-106: the where-clamp keeps a raw
hour only inside 0 to 23, and fillna turns a missing raw hour into 0. -/
def clampHora (oh : Option Int) : Int :=
  match oh with
  | none => 0
  | some h => if 0 ≤ h ∧ h ≤ 23 then h else 0

/-- One row of extrair_hora_robusta on a string column (lines 86-106):
raw parse, then the clamp and fill.  A none input row (pd.NA) matches no
mask and stays NA, hence 0. -/
def extrairHoraRow (cp : String → Option Int) (v : Option String) : Int :=
  match v with
  | none => 0
  | some s => clampHora (horaBruta cp s)

/-- extrair_hora_robusta at column level: a missing column (df.get of an
absent name, lines 79-80) yields the constant-0 series over the frame's
index; a present string column maps the row parser. -/
def extrairHoraColuna (cp : String → Option Int) (coluna : Option (List (Option String)))
    (nLinhas : Nat) : List Int :=
  match coluna with
  | none => List.replicate nLinhas 0
  | some vs => vs.map (extrairHoraRow cp)


/-! ## Region classifier (zonas_sao_paulo and the loop at app.py lines 200-202) -/

/-- Zone table entry for Zona Norte in zonas_sao_paulo (app.py). -/
def zonaNorteList : List String :=
  ["Água Fria", "Brasilândia", "Casa Verde", "Freguesia do Ó", "Jaçanã", 
   "Jardim Japão", "Jardim Julieta", "Jardim Leme", 
   "Jardim Leonor Mendes de Barros", "Jardim Mabel", "Jardim Recanto Verde", 
   "Lauzane Paulista", "Limão", "Mandaqui", "Mata Fria", "Parada Inglesa", 
   "Parque Edu Chaves", "Parque Mandaqui", "Parque Novo Mundo", 
   "Parque Paineiras", "Parque Peruche", "Parque Rodrigues Alves", 
   "Parque Palmas do Tremembé", "Parque Vila Guilherme", "Pari", "Perus", 
   "Piqueri", "Residencial Sol Nascente", "Santa Terezinha", "Santana", 
   "Tucuruvi", "Vila Albertina", "Vila Amália", "Vila Bancária", 
   "Vila Brasilândia", "Vila Cachoeira", "Vila Dionísia", "Vila Ede", 
   "Vila Elisa", "Vila Ester", "Vila Fenelon", "Vila Formosa", 
   "Vila Guilherme", "Vila Gustavo", "Vila Mazzei", "Vila Medeiros", 
   "Vila Nilo", "Vila Nova Cachoeirinha", "Vila Nova Mazzei", 
   "Vila Nova Parada", "Vila Paiva", "Vila Perus", "Vila Pirituba", 
   "Vila Sabrina", "Vila Santa Teresinha", "Vila Siqueira", "Vila Souza", 
   "Vila Vergueiro", "Vila Vitória", "Vila Zat"]

/-- Zone table entry for Zona Sul in zonas_sao_paulo (app.py). -/
def zonaSulList : List String :=
  ["Chácara Flora", "Chácara Santo Antônio", "Cidade Dutra", "Ibirapuera", 
   "Ipiranga", "Jabaquara", "Jardim América", "Jardim Ângela", 
   "Jardim Arpoador", "Jardim da Glória", "Jardim das Oliveiras", 
   "Jardim das Rosas", "Jardim do Carmo", "Jardim Maringá", "Jardim Mirante", 
   "Jardim Monte Belo", "Jardim Monte Kemel", "Jardim Monte Verde", 
   "Jardim Morais Prado", "Jardim Nardini", "Jardim Nova Vitória I", 
   "Jardim Paris", "Jardim Paulista", "Jardim Paulistano", 
   "Jardim Prudência", "Jardim Santa Amélia", "Jardim Santa Cruz", 
   "Jardim Santa Helena", "Jardim Santa Rita", "Jardim Santo Amaro", 
   "Jardim São João", "Jardim São José", "Jardim São Luís", 
   "Jardim São Sebastião", "Jardim São Vicente", "Jardim Soraia", 
   "Jardim Umuarama", "Jardim Vaz de Lima", "Jardim Vergueiro", "Jardins", 
   "Jurubatuba", "Moema", "Morumbi", "Paraisópolis", "Parelheiros", 
   "Parque Alto do Rio Bonito", "Parque Americano", "Parque Arariba", 
   "Parque das Fontes", "Parque do Estado", "Parque Fernanda", 
   "Parque Grajaú", "Parque Independência", "Parque Novo Grajaú", 
   "Parque Novo Santo Amaro", "Parque Residencial Cocaia", 
   "Parque Santo Amaro", "Parque Santo Antônio", "Parque São Paulo", 
   "Parque São Rafael", "Parque Sevilha", "Pedreira", "Santo Amaro", 
   "Sapopemba", "Saúde", "Socorro", "Vila Americana", "Vila Andrade", 
   "Vila Arcádia", "Vila Bandeirantes", "Vila Brasilina", "Vila Campestre", 
   "Vila Campo Grande", "Vila Caraguatá", "Vila Clemência", 
   "Vila Clementino", "Vila das Mercês", "Vila do Encontro", 
   "Vila Dom Pedro I", "Vila Fátima", "Vila Gertrudes", "Vila Guacuri", 
   "Vila Guarani", "Vila Gumercindo", "Vila Inglesa", "Vila Joaniza", 
   "Vila Mariana", "Vila Mascote", "Vila Missionária", "Vila Monumento", 
   "Vila Moraes", "Vila Olímpia", "Vila Pedreira", "Vila Prudente", 
   "Vila Remo", "Vila Santa Catarina", "Vila Santa Cecília", 
   "Vila Santa Delphina", "Vila Santa Efigênia", "Vila Santa Tereza", 
   "Vila São Francisco", "Vila São José", "Vila São Pedro", "Vila São Paulo", 
   "Vila Socorro", "Vila Sofia", "Vila Suzana", "Vila Vera", "Vila do Sítio", 
   "Várzea de Baixo"]

/-- Zone table entry for Zona Leste in zonas_sao_paulo (app.py). -/
def zonaLesteList : List String :=
  ["Aricanduva", "Artur Alvim", "Belém", "Cidade A. E. Carvalho", 
   "Cidade Líder", "Cidade Patriarca", "Cidade São Mateus", 
   "Cidade Tiradentes", "José Bonifácio", "Lajeado", "Mooca", 
   "Parada Inglesa", "Parque Artur Alvim", "Parque do Carmo", 
   "Parque do Estado", "Parque Fontene", "Parque Guainazes", "Parque Maria", 
   "Parque Monte Líbano", "Parque Novo Mundo", "Parque Savóia", 
   "Parque São Lucas", "Parque São Rafael", "Penha", "Ponte Rasa", 
   "São Miguel Paulista", "Tatuapé", "Vila América", "Vila Antonieta", 
   "Vila Aricanduva", "Vila Califórnia", "Vila Carmosina", "Vila Carrão", 
   "Vila Cláudio", "Vila Divina Pastora", "Vila Ema", "Vila Formosa", 
   "Vila Guilherme", "Vila Industrial", "Vila Jaçanã", "Vila Jacuí", 
   "Vila Manchester", "Vila Maria", "Vila Marieta", "Vila Marilena", 
   "Vila Mascote", "Vila Matilde", "Vila Nhocuné", "Vila Pimentel", 
   "Vila Prudente", "Vila Santa Inês", "Vila Santa Teresinha", 
   "Vila São Francisco", "Vila São Mateus", "Vila São Miguel", 
   "Vila São Rafael", "Vila Silvia", "Vila Silveira", "Vila Siqueira", 
   "Vila Talarico", "Vila Tolstoi", "Vila Zelina"]

/-- Zone table entry for Zona Oeste in zonas_sao_paulo (app.py). -/
def zonaOesteList : List String :=
  ["Butantã", "Jaguaré", "Jaraguá", "Lapa", "Morumbi", "Perdizes", 
   "Pinheiros", "Pirituba", "Pompeia", "Rio Pequeno", "Vila Iolanda", 
   "Vila Ipojuca", "Vila Leopoldina", "Vila Madalena", "Vila Sônia"]

/-- Zone table entry for Centro in zonas_sao_paulo (app.py). -/
def centroList : List String :=
  ["Aclimação", "Barra Funda", "Bela Vista", "Bom Retiro", "Cambuci", 
   "Campos Elíseos", "Consolação", "Higienópolis", "Jardim Anália Franco", 
   "Jardim da Glória", "Jardim do Carmo", "Jardim Europa", "Jardim Paulista", 
   "Liberdade", "Luz", "Pacaembu", "Pari", "Praça da Árvore", "República", 
   "Santa Cecília", "Sé", "Vila Buarque", "Vila Monumento"]

/-- Zone table entry for Outras Localidades in zonas_sao_paulo (app.py). -/
def outrasLocalidadesList : List String :=
  ["Jardim Vivan", "Jardim Wilma Flor", "Jardim Coimbra", 
   "Jardim Vle Virtudes", "Vila Baby", "Vila Barreto", "Vila Bozzini", 
   "Vila Brasilia", "Vila Chabilandia", "Vila Chely", "Vila Curuça Velha", 
   "Vila Feliz", "Vila Franquis", "Vila Friburgo", "Vila Fukuya", "Vila Ger", 
   "Vila Gertrudes", "Vila Heliopolis", "Vila Itaim", "Vila Jacu", 
   "Vila Jaguari", "Vila Jaçanã", "Vila João", "Vila Jurema", "Vila Lousada", 
   "Vila Mairiporã", "Vila Manuel", "Vila Mariazinha", "Vila Mariana", 
   "Vila Mazzei", "Vila Monte", "Vila Morumbi", "Vila Nelson", "Vila Nova"]

/-- The zone dictionary zonas_sao_paulo, in Python insertion order (the
order the classification loop iterates in). -/
def zonasSaoPaulo : List (String × List String) :=
  [("Zona Norte", zonaNorteList), ("Zona Sul", zonaSulList),
   ("Zona Leste", zonaLesteList), ("Zona Oeste", zonaOesteList),
   ("Centro", centroList), ("Outras Localidades", outrasLocalidadesList)]

/-- Models Series.isin for one row: an NA neighborhood matches no list. -/
def isinOpt (b : Option String) (l : List String) : Bool :=
  match b with
  | some s => l.contains s
  | none => false

/-- The region assignment of app.py lines 200-202: start from the default
value and overwrite, in dictionary order, with each zone whose table
contains the neighborhood; the last matching zone wins. -/
def classifyRegiao (b : Option String) : String :=
  zonasSaoPaulo.foldl (fun acc z => if isinOpt b z.2 then z.1 else acc) "Outra Região"


/-! ## Data model

One row of the normalized criminal table df_criminal (the columns the
dashboard callback reads), and one row of the normalized events table
df_eventos.  Option fields model NA-able pandas values; coordinates use
Int (the claims under check depend on presence and exact-value grouping
of coordinates, not on float arithmetic).  Event coordinates are non-null
because the events loader drops rows with missing coordinates
(app.py line 236). -/

structure CrimRow where
  ano : Nat
  mes : Nat
  cidade : String
  bairro : Option String
  natureza : Option String
  hora : Int
  regiao : String
  latitude : Option Int
  longitude : Option Int
deriving DecidableEq, Repr

structure EventRow where
  mes : Nat
  hora : Int
  cidade : Option String
  bairro : Option String
  eventoNome : Option String
  latitude : Int
  longitude : Int
deriving DecidableEq, Repr

/-- The filter selection handed to atualizar_dashboard_completo: the seven
dropdown values, none meaning unconstrained. -/
structure Selecao where
  mes : Option Nat
  regiao : Option String
  cidade : Option String
  bairro : Option String
  natureza : Option String
  evento : Option String
  hora : Option Int
deriving DecidableEq, Repr

/-- The all-clear selection: every dropdown on its placeholder. -/
def selVazia : Selecao :=
  { mes := none, regiao := none, cidade := none, bairro := none,
    natureza := none, evento := none, hora := none }

/-! ## Filtering (app.py lines 544-570)

The callback applies one boolean-mask filter per non-null dropdown, in
source order.  A pandas equality comparison against NA is False, so the
Option-typed columns compare against some value. -/

/-- Sequential filtering of the criminal table (lines 549-566): month,
city, neighborhood, hour, then region and category. -/
def filtrarCrim (sel : Selecao) (rows : List CrimRow) : List CrimRow :=
  let r1 := match sel.mes with
    | none => rows
    | some m => rows.filter (fun r => r.mes == m)
  let r2 := match sel.cidade with
    | none => r1
    | some c => r1.filter (fun r => r.cidade == c)
  let r3 := match sel.bairro with
    | none => r2
    | some b => r2.filter (fun r => r.bairro == some b)
  let r4 := match sel.hora with
    | none => r3
    | some h => r3.filter (fun r => r.hora == h)
  let r5 := match sel.regiao with
    | none => r4
    | some rg => r4.filter (fun r => r.regiao == rg)
  match sel.natureza with
  | none => r5
  | some n => r5.filter (fun r => r.natureza == some n)

/-- Sequential filtering of the events table (lines 549-570): month, city,
neighborhood, hour, then event name. -/
def filtrarEventos (sel : Selecao) (rows : List EventRow) : List EventRow :=
  let r1 := match sel.mes with
    | none => rows
    | some m => rows.filter (fun r => r.mes == m)
  let r2 := match sel.cidade with
    | none => r1
    | some c => r1.filter (fun r => r.cidade == some c)
  let r3 := match sel.bairro with
    | none => r2
    | some b => r2.filter (fun r => r.bairro == some b)
  let r4 := match sel.hora with
    | none => r3
    | some h => r3.filter (fun r => r.hora == h)
  match sel.evento with
  | none => r4
  | some e => r4.filter (fun r => r.eventoNome == some e)

/-- The conjunction of the per-dropdown predicates, used to reason about
the sequential filters as one pass. -/
def matchesCrim (sel : Selecao) (r : CrimRow) : Bool :=
  (match sel.mes with | none => true | some m => r.mes == m) &&
  (match sel.cidade with | none => true | some c => r.cidade == c) &&
  (match sel.bairro with | none => true | some b => r.bairro == some b) &&
  (match sel.hora with | none => true | some h => r.hora == h) &&
  (match sel.regiao with | none => true | some rg => r.regiao == rg) &&
  (match sel.natureza with | none => true | some n => r.natureza == some n)

/-- Conjunction form of the events filter. -/
def matchesEventos (sel : Selecao) (r : EventRow) : Bool :=
  (match sel.mes with | none => true | some m => r.mes == m) &&
  (match sel.cidade with | none => true | some c => r.cidade == some c) &&
  (match sel.bairro with | none => true | some b => r.bairro == some b) &&
  (match sel.hora with | none => true | some h => r.hora == h) &&
  (match sel.evento with | none => true | some e => r.eventoNome == some e)

/-- One selection extends another when it keeps every constraint of the
other (and may add more): per dimension, either the weaker selection is
unconstrained or both agree. -/
structure Estende (s s' : Selecao) : Prop where
  mes : s.mes = none ∨ s'.mes = s.mes
  regiao : s.regiao = none ∨ s'.regiao = s.regiao
  cidade : s.cidade = none ∨ s'.cidade = s.cidade
  bairro : s.bairro = none ∨ s'.bairro = s.bairro
  natureza : s.natureza = none ∨ s'.natureza = s.natureza
  evento : s.evento = none ∨ s'.evento = s.evento
  hora : s.hora = none ∨ s'.hora = s.hora

/-! ## Aggregations and cards (app.py lines 572-684) -/

/-- The rows surviving the hour-zero exclusion of line 573. -/
def semHoraZero (l : List CrimRow) : List CrimRow :=
  l.filter (fun r => r.hora != 0)

/-- Series.value_counts: each distinct value with its multiplicity (its
sort order is immaterial here because every use is followed by reindex). -/
def valueCounts (l : List Int) : List (Int × Nat) :=
  l.dedup.map (fun h => (h, l.count h))

/-- Series.reindex over a fixed domain with fill_value 0: for each domain
key, the counted value if present, otherwise 0. -/
def reindexFill (vc : List (Int × Nat)) (dom : List Int) : List (Int × Nat) :=
  dom.map (fun h => (h, (vc.lookup h).getD 0))

/-- The histogram domain range(1, 24) of line 599. -/
def domHorasCrim : List Int :=
  (List.range 23).map (fun (i : Nat) => (i : Int) + 1)

/-- The histogram domain range(24) of lines 642 and 668. -/
def domHorasEventos : List Int :=
  (List.range 24).map (fun (i : Nat) => (i : Int))

/-- ocorrencias_por_hora_crim (lines 598-600): value counts of the hour
column of the hour-zero-free filtered table, reindexed over 1 to 23. -/
def ocorrenciasPorHoraCrim (sel : Selecao) (rows : List CrimRow) : List (Int × Nat) :=
  reindexFill (valueCounts ((semHoraZero (filtrarCrim sel rows)).map (fun r => r.hora)))
    domHorasCrim

/-- contagem_hora_eventos (line 668, and the identical reindexed series of
line 642): value counts of the filtered events hours over 0 to 23. -/
def contagemHoraEventos (sel : Selecao) (rows : List EventRow) : List (Int × Nat) :=
  reindexFill (valueCounts ((filtrarEventos sel rows).map (fun r => r.hora)))
    domHorasEventos

/-- The count a reindexed series holds at one key. -/
def contagemEm (vc : List (Int × Nat)) (h : Int) : Nat :=
  (vc.lookup h).getD 0

/-- The coordinate pairs of the criminal rows whose latitude and longitude
are both present: the dropna of lines 576-579. -/
def coordsCrim (l : List CrimRow) : List (Int × Int) :=
  l.filterMap (fun r =>
    match r.latitude, r.longitude with
    | some la, some lo => some (la, lo)
    | _, _ => none)

/-- contagem_mapa_crim (lines 576-583): group the coordinate-complete
filtered rows by exact coordinate pair and count. -/
def contagemMapaCrim (sel : Selecao) (rows : List CrimRow) : List ((Int × Int) × Nat) :=
  let pts := coordsCrim (filtrarCrim sel rows)
  pts.dedup.map (fun p => (p, pts.count p))

/-- contagem_mapa_eventos (line 633): same grouping over the filtered
events table, whose coordinates are always present. -/
def contagemMapaEventos (sel : Selecao) (rows : List EventRow) : List ((Int × Int) × Nat) :=
  let pts := (filtrarEventos sel rows).map (fun r => (r.latitude, r.longitude))
  pts.dedup.map (fun p => (p, pts.count p))

/-- Total mass of a density aggregate: the sum of its per-point counts. -/
def massa (cont : List ((Int × Int) × Nat)) : Nat :=
  (cont.map (fun p => p.2)).sum

/-- A figure output: either the empty-data placeholder annotation or a
density map over grouped coordinate counts with its zoom level. -/
inductive FigMapa where
  | avisoVazio (texto : String)
  | densidade (dados : List ((Int × Int) × Nat)) (zoom : Nat)
deriving DecidableEq, Repr

/-- fig_mapa_crim (lines 584-594): placeholder annotation when the grouped
aggregate is empty, else a density map whose zoom depends on filter
specificity (line 589). -/
def figMapaCrim (sel : Selecao) (rows : List CrimRow) : FigMapa :=
  let cont := contagemMapaCrim sel rows
  if cont.isEmpty then FigMapa.avisoVazio "Nenhum dado encontrado para os filtros."
  else FigMapa.densidade cont
    (if sel.bairro.isSome then 12 else if sel.regiao.isSome then 10 else 9)

/-- fig_mapa_eventos (lines 657-664): fixed zoom, placeholder when the
aggregate is empty. -/
def figMapaEventos (sel : Selecao) (rows : List EventRow) : FigMapa :=
  let cont := contagemMapaEventos sel rows
  if cont.isEmpty then
    FigMapa.avisoVazio "Nenhum evento encontrado para os filtros selecionados."
  else FigMapa.densidade cont 12

/-- total_ocorrencias (line 613): the size of the hour-zero-free filtered
criminal table. -/
def totalOcorrencias (sel : Selecao) (rows : List CrimRow) : Nat :=
  (semHoraZero (filtrarCrim sel rows)).length

/-- total_eventos (line 682): the size of the filtered events table. -/
def totalEventos (sel : Selecao) (rows : List EventRow) : Nat :=
  (filtrarEventos sel rows).length

/-- Series.max over the counts of a reindexed series (0 on empty input,
matching the guard that pairs it with a non-empty check). -/
def maxContagem (vc : List (Int × Nat)) : Nat :=
  (vc.map (fun p => p.2)).foldl max 0

/-- Series.idxmax: the first key attaining the maximal count. -/
def idxmaxContagem (vc : List (Int × Nat)) : Option Int :=
  (vc.find? (fun p => p.2 == maxContagem vc)).map (fun p => p.1)

/-- The card text for an hour h, the f-string of lines 616 and 645. -/
def horaTxt (h : Int) : String :=
  (if h < 10 then "0" ++ toString h else toString h) ++ ":00"

/-- horario_txt_crim (lines 614-618): the most frequent hour of the
occurrence histogram, or the not-applicable marker when the histogram is
empty or maxes at zero. -/
def horarioTxtCrim (sel : Selecao) (rows : List CrimRow) : String :=
  let vc := ocorrenciasPorHoraCrim sel rows
  if !vc.isEmpty && decide (0 < maxContagem vc) then
    match idxmaxContagem vc with
    | some h => horaTxt h
    | none => "N/A"
  else "N/A"

/-- horario_txt_eventos (lines 642-650): not applicable when the filtered
events table is empty, else the most frequent hour of the reindexed
histogram with the same zero-max guard. -/
def horarioTxtEventos (sel : Selecao) (rows : List EventRow) : String :=
  if (filtrarEventos sel rows).isEmpty then "N/A"
  else
    let vc := contagemHoraEventos sel rows
    if !vc.isEmpty && decide (0 < maxContagem vc) then
      match idxmaxContagem vc with
      | some h => horaTxt h
      | none => "N/A"
    else "N/A"

/-- natureza_frequente (lines 621-624): over the whole filtered criminal
table (hour-zero rows included), the mode of the category column; pandas
mode drops NA, sorts the most frequent values and iloc picks the least,
and an empty mode or an empty table yields the not-applicable marker. -/
def naturezaFrequente (sel : Selecao) (rows : List CrimRow) : String :=
  let f := filtrarCrim sel rows
  if f.isEmpty then "N/A"
  else
    let vs := f.filterMap (fun r => r.natureza)
    let melhor := (vs.dedup.insertionSort (fun a b => a ≤ b)).find?
      (fun v => vs.count v == (vs.dedup.map (fun w => vs.count w)).foldl max 0)
    match melhor with
    | some v => v
    | none => "N/A"

/-- top_evento (lines 635-640, 648-649): not applicable on an empty
filtered table; else the first value of the descending value counts of the
non-NA event names, or not applicable when every name is NA. -/
def topEvento (sel : Selecao) (rows : List EventRow) : String :=
  let f := filtrarEventos sel rows
  if f.isEmpty then "N/A"
  else
    let vs := f.filterMap (fun r => r.eventoNome)
    let melhor := vs.dedup.find?
      (fun v => vs.count v == (vs.dedup.map (fun w => vs.count w)).foldl max 0)
    match melhor with
    | some v => v
    | none => "N/A"


/-! ## Criminal loader (app.py lines 62-108 and 200-202) -/

/-- One raw criminal row as read from the spreadsheet, after the
to_datetime coercion of line 62: the date is either its (year, month)
components or none for an unparseable value; the remaining columns keep
their possibly-NA source values. -/
structure RawCrim where
  dataOcorrencia : Option (Nat × Nat)
  horaOcorrencia : Option String
  bairro : Option String
  natureza : Option String
  latitude : Option Int
  longitude : Option Int
deriving DecidableEq, Repr

/-- The normalization of one raw criminal row with a parseable date:
derive year and month (lines 64-65), the constant city (line 66), the hour
via the hour extractor (line 108) and the region via the zone loop
(lines 200-202); pass latitude, longitude, neighborhood and category
through untouched. -/
def normalizaCrim (cp : String → Option Int) (r : RawCrim) (a m : Nat) : CrimRow :=
  { ano := a, mes := m, cidade := "São Paulo",
    bairro := r.bairro, natureza := r.natureza,
    hora := extrairHoraRow cp r.horaOcorrencia,
    regiao := classifyRegiao r.bairro,
    latitude := r.latitude, longitude := r.longitude }

/-- df_criminal after preprocessing: the dropna over the date column
(line 63) keeps exactly the rows whose date parsed, each then normalized.
No other column, coordinates included, causes a drop. -/
def dfCriminal (cp : String → Option Int) (raw : List RawCrim) : List CrimRow :=
  raw.filterMap (fun r =>
    match r.dataOcorrencia with
    | none => none
    | some (a, m) => some (normalizaCrim cp r a m))

/-! ## Filter option builder (app.py lines 70-73 and 261-272) -/

/-- The fixed month-number to month-name dictionary nomes_meses
(lines 70-73). -/
def nomesMeses : List (Nat × String) :=
  [(1, "Janeiro"), (2, "Fevereiro"), (3, "Março"), (4, "Abril"),
   (5, "Maio"), (6, "Junho"), (7, "Julho"), (8, "Agosto"),
   (9, "Setembro"), (10, "Outubro"), (11, "Novembro"), (12, "Dezembro")]

/-- Python sorted over strings. -/
def ordena (l : List String) : List String :=
  l.insertionSort (fun a b => a ≤ b)

/-- bairros_unicos (line 262): the sorted union of the distinct non-NA
neighborhoods of both tables. -/
def bairrosUnicos (crim : List CrimRow) (evs : List EventRow) : List String :=
  ordena ((crim.filterMap (fun r => r.bairro) ++ evs.filterMap (fun r => r.bairro)).dedup)

/-- naturezas_unicas (line 263): sorted distinct non-NA categories of the
criminal table alone. -/
def naturezasUnicas (crim : List CrimRow) : List String :=
  ordena ((crim.filterMap (fun r => r.natureza)).dedup)

/-- cidades_unicas (line 267): the sorted union of the distinct cities of
both tables (the criminal city column is never NA). -/
def cidadesUnicas (crim : List CrimRow) (evs : List EventRow) : List String :=
  ordena ((crim.map (fun r => r.cidade) ++ evs.filterMap (fun r => r.cidade)).dedup)

/-- eventos_unicos (line 268): sorted distinct non-NA event names of the
events table alone. -/
def eventosUnicos (evs : List EventRow) : List String :=
  ordena ((evs.filterMap (fun r => r.eventoNome)).dedup)

/-- horas_unicas (line 269): the fixed full range, independent of both
tables. -/
def horasUnicas : List Int :=
  (List.range 24).map (fun (i : Nat) => (i : Int))

/-- meses_unicos (line 271): the names, via the fixed dictionary, of the
sorted distinct month numbers present in the criminal table. -/
def mesesUnicos (crim : List CrimRow) : List String :=
  ((crim.map (fun r => r.mes)).dedup.insertionSort (fun a b => a ≤ b)).filterMap
    (fun m => nomesMeses.lookup m)


/-! ## Concrete sample data, used to evaluate the development on closed
inputs. -/

/-- A selection constraining only the hour, to 9. -/
def selHoraNove : Selecao :=
  { selVazia with hora := some 9 }

/-- A selection constraining only the hour, to 0. -/
def selHoraZero : Selecao :=
  { selVazia with hora := some 0 }

/-- A criminal row whose extracted hour is the unknown sentinel 0, with
complete coordinates. -/
def crimExemploHoraZero : CrimRow :=
  { ano := 2023, mes := 2, cidade := "São Paulo", bairro := some "Moema",
    natureza := some "Furto", hora := 0, regiao := "Zona Sul",
    latitude := some 10, longitude := some 20 }

/-- A criminal row with a real hour but a missing latitude. -/
def crimExemploSemCoord : CrimRow :=
  { ano := 2023, mes := 2, cidade := "São Paulo", bairro := some "Moema",
    natureza := some "Furto", hora := 9, regiao := "Zona Sul",
    latitude := none, longitude := some 20 }

/-- A criminal row with the hour-0 sentinel and a missing latitude. -/
def crimExemploSemCoordHoraZero : CrimRow :=
  { ano := 2023, mes := 2, cidade := "São Paulo", bairro := some "Moema",
    natureza := some "Furto", hora := 0, regiao := "Zona Sul",
    latitude := none, longitude := some 20 }

/-- An event row at hour 0. -/
def eventoExemploHoraZero : EventRow :=
  { mes := 2, hora := 0, cidade := some "São Paulo", bairro := some "Moema",
    eventoNome := some "Show", latitude := 10, longitude := 20 }

/-- A one-row criminal table. -/
def crimTabelaExemplo : List CrimRow :=
  [crimExemploSemCoord]

/-- A one-row events table. -/
def eventosTabelaExemplo : List EventRow :=
  [eventoExemploHoraZero]

/-- Two raw criminal rows: one with a parseable date and missing
longitude, one with an unparseable date. -/
def rawTabelaExemplo : List RawCrim :=
  [{ dataOcorrencia := some (2023, 2), horaOcorrencia := some "2130",
     bairro := some "Moema", natureza := some "Furto",
     latitude := some 10, longitude := none },
   { dataOcorrencia := none, horaOcorrencia := some "10:00",
     bairro := some "Moema", natureza := some "Furto",
     latitude := some 10, longitude := some 20 }]

end SSPxCosecurity

namespace SSPxCosecurity

theorem filtrarCrim_eq_filter (sel : Selecao) (rows : List CrimRow) :
    filtrarCrim sel rows = rows.filter (matchesCrim sel) := by
  unfold filtrarCrim matchesCrim
  cases sel.mes <;> cases sel.cidade <;> cases sel.bairro <;> cases sel.hora <;>
    cases sel.regiao <;> cases sel.natureza <;>
    simp [List.filter_filter, Bool.and_assoc, Bool.and_comm, Bool.and_left_comm]

theorem filtrarEventos_eq_filter (sel : Selecao) (rows : List EventRow) :
    filtrarEventos sel rows = rows.filter (matchesEventos sel) := by
  unfold filtrarEventos matchesEventos
  cases sel.mes <;> cases sel.cidade <;> cases sel.bairro <;> cases sel.hora <;>
    cases sel.evento <;>
    simp [List.filter_filter, Bool.and_assoc, Bool.and_comm, Bool.and_left_comm]

theorem lookup_map_pair (keys : List Int) (f : Int → Nat) (h : Int) :
    ((keys.map (fun x => (x, f x))).lookup h) = if h ∈ keys then some (f h) else none := by
  induction keys with
  | nil => simp
  | cons k ks ih =>
    by_cases hk : h = k
    · simp [hk, List.lookup]
    · have hb : (h == k) = false := beq_eq_false_iff_ne.mpr hk
      simp [List.lookup, hb, ih, hk]

theorem contagem_getD (l : List Int) (h : Int) :
    ((valueCounts l).lookup h).getD 0 = l.count h := by
  unfold valueCounts
  rw [lookup_map_pair]
  by_cases hm : h ∈ l.dedup
  · simp [hm]
  · have hnl : h ∉ l := fun hc => hm (List.mem_dedup.mpr hc)
    simp [hm, List.count_eq_zero.mpr hnl]

theorem reindex_valueCounts (l dom : List Int) :
    reindexFill (valueCounts l) dom = dom.map (fun h => (h, l.count h)) := by
  unfold reindexFill
  simp only [contagem_getD]

theorem count_instEq (x : Int × Int) (l : List (Int × Int)) :
    l.count x = @List.count _ instBEqOfDecidableEq x l := by
  induction l with
  | nil => rfl
  | cons a t ih =>
    by_cases hba : a = x
    · subst hba
      have h2 : (@BEq.beq _ instBEqOfDecidableEq a a) = decide (a = a) := rfl
      simp [List.count_cons, ih, h2]
    · have h2 : (@BEq.beq _ instBEqOfDecidableEq a x) = decide (a = x) := rfl
      simp [List.count_cons, ih, h2, hba]

theorem massa_grupos (pts : List (Int × Int)) :
    massa (pts.dedup.map (fun p => (p, pts.count p))) = pts.length := by
  unfold massa
  rw [List.map_map]
  simp only [Function.comp_def, count_instEq]
  simpa using List.sum_map_count_dedup_eq_length pts

theorem maxContagem_eq_zero {vc : List (Int × Nat)} (h : ∀ p ∈ vc, p.2 = 0) :
    maxContagem vc = 0 := by
  unfold maxContagem
  have : ∀ (xs : List Nat), (∀ x ∈ xs, x = 0) → xs.foldl max 0 = 0 := by
    intro xs
    induction xs with
    | nil => intro _; rfl
    | cons a l ih =>
      intro hx
      have ha : a = 0 := hx a (List.mem_cons_self a l)
      simp [ha, ih (fun x hm => hx x (List.mem_cons_of_mem a hm))]
  exact this _ (by intro x hx; obtain ⟨p, hp, rfl⟩ := List.mem_map.mp hx; exact h p hp)

theorem matchesCrim_mono {s s' : Selecao} (h : Estende s s') (r : CrimRow)
    (hm : matchesCrim s' r = true) : matchesCrim s r = true := by
  unfold matchesCrim at hm ⊢
  simp only [Bool.and_eq_true, and_assoc] at hm ⊢
  obtain ⟨h1, h2, h3, h4, h5, h6⟩ := hm
  refine ⟨?_, ?_, ?_, ?_, ?_, ?_⟩
  · rcases h.mes with hn | he
    · simp [hn]
    · rwa [← he]
  · rcases h.cidade with hn | he
    · simp [hn]
    · rwa [← he]
  · rcases h.bairro with hn | he
    · simp [hn]
    · rwa [← he]
  · rcases h.hora with hn | he
    · simp [hn]
    · rwa [← he]
  · rcases h.regiao with hn | he
    · simp [hn]
    · rwa [← he]
  · rcases h.natureza with hn | he
    · simp [hn]
    · rwa [← he]

theorem matchesEventos_mono {s s' : Selecao} (h : Estende s s') (r : EventRow)
    (hm : matchesEventos s' r = true) : matchesEventos s r = true := by
  unfold matchesEventos at hm ⊢
  simp only [Bool.and_eq_true, and_assoc] at hm ⊢
  obtain ⟨h1, h2, h3, h4, h5⟩ := hm
  refine ⟨?_, ?_, ?_, ?_, ?_⟩
  · rcases h.mes with hn | he
    · simp [hn]
    · rwa [← he]
  · rcases h.cidade with hn | he
    · simp [hn]
    · rwa [← he]
  · rcases h.bairro with hn | he
    · simp [hn]
    · rwa [← he]
  · rcases h.hora with hn | he
    · simp [hn]
    · rwa [← he]
  · rcases h.evento with hn | he
    · simp [hn]
    · rwa [← he]

end SSPxCosecurity

namespace SSPxCosecurity

/-- C1: for every input column to the hour extractor (a missing column
included) and any behavior of the library clock parser, every per-row
output is an integer in the range 0 to 23; a missing row value, an empty
string, a row whose raw parse fails, and a raw hour outside the range all
produce 0. -/
theorem hora_robusta_total (cp : String → Option Int)
    (coluna : Option (List (Option String))) (nLinhas : Nat) :
    (∀ x ∈ extrairHoraColuna cp coluna nLinhas, 0 ≤ x ∧ x ≤ 23) ∧
    extrairHoraRow cp none = 0 ∧
    extrairHoraRow cp (some "") = 0 ∧
    (∀ s, horaBruta cp s = none → extrairHoraRow cp (some s) = 0) ∧
    (∀ s h, horaBruta cp s = some h → ¬(0 ≤ h ∧ h ≤ 23) →
      extrairHoraRow cp (some s) = 0) := by
  have hrow : ∀ v, 0 ≤ extrairHoraRow cp v ∧ extrairHoraRow cp v ≤ 23 := by
    intro v
    cases v with
    | none => simp [extrairHoraRow]
    | some s =>
      show 0 ≤ clampHora (horaBruta cp s) ∧ clampHora (horaBruta cp s) ≤ 23
      generalize horaBruta cp s = ob
      cases ob with
      | none => simp [clampHora]
      | some h =>
        by_cases hr : 0 ≤ h ∧ h ≤ 23
        · simp [clampHora, hr]
        · simp [clampHora, hr]
  refine ⟨?_, by simp [extrairHoraRow], rfl, ?_, ?_⟩
  · intro x hx
    cases coluna with
    | none =>
      have := List.eq_of_mem_replicate hx
      simp [this]
    | some vs =>
      obtain ⟨v, _, rfl⟩ := List.mem_map.mp hx
      exact hrow v
  · intro s hs
    simp [extrairHoraRow, clampHora, hs]
  · intro s h hs hr
    simp [extrairHoraRow, clampHora, hs, hr]

/-- Closed instance of hora_robusta_total: the bound at a member of a
concrete column, and the zero default at a malformed and at an
out-of-range row. -/
theorem hora_robusta_total_witness :
    (0 ≤ (0 : Int) ∧ (0 : Int) ≤ 23) ∧
    extrairHoraRow (fun _ => none) (some "abc") = 0 ∧
    extrairHoraRow (fun _ => none) (some " 99 ") = 0 :=
  ⟨(hora_robusta_total (fun _ => none) (some [some "abc"]) 1).1 0 (by decide),
   (hora_robusta_total (fun _ => none) (some [some "abc"]) 1).2.2.2.1 "abc" (by decide),
   (hora_robusta_total (fun _ => none) (some [some "abc"]) 1).2.2.2.2 " 99 " 99
     (by decide) (by decide)⟩

/-- C2: on a value without a colon the raw hour comes from the stripped
digit string: the first two digits when at least 6 digits or when 3 to 5
digits remain, the digits themselves when at most 2 remain; in particular
2130 gives 21, 083000 gives 8, 7 gives 7, and the empty string or a
missing value give 0. -/
theorem hora_sem_colon_digitos (cp : String → Option Int) (t : String) :
    (temDoisPontos (estripa t) = false → horaBruta cp t = horaSemColon (estripa t)) ∧
    (6 ≤ (digitsOnly t).length →
      horaSemColon t = parseDigits (slice02 (digitsOnly t))) ∧
    (3 ≤ (digitsOnly t).length ∧ (digitsOnly t).length ≤ 5 →
      horaSemColon t = parseDigits (slice02 (digitsOnly t))) ∧
    ((digitsOnly t).length ≤ 2 → horaSemColon t = parseDigits (digitsOnly t)) ∧
    extrairHoraRow cp (some "2130") = 21 ∧
    extrairHoraRow cp (some "083000") = 8 ∧
    extrairHoraRow cp (some "7") = 7 ∧
    extrairHoraRow cp (some "") = 0 ∧
    extrairHoraRow cp none = 0 := by
  refine ⟨?_, ?_, ?_, ?_, rfl, rfl, rfl, rfl, rfl⟩
  · intro h
    simp [horaBruta, h]
  · intro h
    unfold horaSemColon
    rw [if_pos h]
  · intro h
    unfold horaSemColon
    rw [if_neg (by omega), if_pos h]
  · intro h
    unfold horaSemColon
    rw [if_neg (by omega), if_neg (by omega), if_pos h]

/-- Closed instance of hora_sem_colon_digitos: each digit-count branch
discharged on a concrete no-colon input. -/
theorem hora_sem_colon_digitos_witness :
    horaSemColon "083000" = parseDigits (slice02 (digitsOnly "083000")) ∧
    horaSemColon "2130" = parseDigits (slice02 (digitsOnly "2130")) ∧
    horaSemColon "7" = parseDigits (digitsOnly "7") ∧
    horaBruta (fun _ => none) "2130" = horaSemColon (estripa "2130") :=
  ⟨(hora_sem_colon_digitos (fun _ => none) "083000").2.1 (by decide),
   (hora_sem_colon_digitos (fun _ => none) "2130").2.2.1 (by decide),
   (hora_sem_colon_digitos (fun _ => none) "7").2.2.2.1 (by decide),
   (hora_sem_colon_digitos (fun _ => none) "2130").1 (by decide)⟩

end SSPxCosecurity

namespace SSPxCosecurity

/-- C3 refuted on the zone tables as they stand: Vila Mariana lies in
exactly one of the five named zone tables (Zona Sul) yet is not classified
as Zona Sul, and Vila Baby lies in the other-localities table yet is not
classified with the no-table default, because the other-localities table
is a seventh distinct label that wins last, not a set absorbed into the
default. -/
theorem regiao_seis_valores_counterexample :
    ("Vila Mariana" ∈ zonaSulList ∧ "Vila Mariana" ∉ zonaNorteList ∧
     "Vila Mariana" ∉ zonaLesteList ∧ "Vila Mariana" ∉ zonaOesteList ∧
     "Vila Mariana" ∉ centroList ∧
     classifyRegiao (some "Vila Mariana") ≠ "Zona Sul") ∧
    ("Vila Baby" ∈ outrasLocalidadesList ∧
     classifyRegiao (some "Vila Baby") ≠ "Outra Região") := by
  constructor
  · refine ⟨by decide, by decide, by decide, by decide, by decide, by decide⟩
  · exact ⟨by decide, by decide⟩

/-- C3 amended: a neighborhood in exactly one of the SIX tables (the five
named zones and the other-localities table) is assigned that table's
label, a name in no table is assigned the default, and the classifier
ranges over exactly seven labels, the other-localities label being
distinct from the default. -/
theorem regiao_classificacao_amended (b : String) :
    (b ∉ zonaNorteList → b ∉ zonaSulList → b ∉ zonaLesteList → b ∉ zonaOesteList →
      b ∉ centroList → b ∉ outrasLocalidadesList →
      classifyRegiao (some b) = "Outra Região") ∧
    (b ∈ zonaNorteList → b ∉ zonaSulList → b ∉ zonaLesteList → b ∉ zonaOesteList →
      b ∉ centroList → b ∉ outrasLocalidadesList →
      classifyRegiao (some b) = "Zona Norte") ∧
    (b ∉ zonaNorteList → b ∈ zonaSulList → b ∉ zonaLesteList → b ∉ zonaOesteList →
      b ∉ centroList → b ∉ outrasLocalidadesList →
      classifyRegiao (some b) = "Zona Sul") ∧
    (b ∉ zonaNorteList → b ∉ zonaSulList → b ∈ zonaLesteList → b ∉ zonaOesteList →
      b ∉ centroList → b ∉ outrasLocalidadesList →
      classifyRegiao (some b) = "Zona Leste") ∧
    (b ∉ zonaNorteList → b ∉ zonaSulList → b ∉ zonaLesteList → b ∈ zonaOesteList →
      b ∉ centroList → b ∉ outrasLocalidadesList →
      classifyRegiao (some b) = "Zona Oeste") ∧
    (b ∉ zonaNorteList → b ∉ zonaSulList → b ∉ zonaLesteList → b ∉ zonaOesteList →
      b ∈ centroList → b ∉ outrasLocalidadesList →
      classifyRegiao (some b) = "Centro") ∧
    (b ∈ outrasLocalidadesList → classifyRegiao (some b) = "Outras Localidades") ∧
    classifyRegiao none = "Outra Região" ∧
    classifyRegiao (some b) ∈ ["Outra Região", "Zona Norte", "Zona Sul",
      "Zona Leste", "Zona Oeste", "Centro", "Outras Localidades"] := by
  have hfold : ∀ s : String, classifyRegiao (some s) =
      (if outrasLocalidadesList.contains s then "Outras Localidades"
       else if centroList.contains s then "Centro"
       else if zonaOesteList.contains s then "Zona Oeste"
       else if zonaLesteList.contains s then "Zona Leste"
       else if zonaSulList.contains s then "Zona Sul"
       else if zonaNorteList.contains s then "Zona Norte"
       else "Outra Região") := by
    intro s
    simp only [classifyRegiao, zonasSaoPaulo, isinOpt, List.foldl]
  refine ⟨?_, ?_, ?_, ?_, ?_, ?_, ?_, by decide, ?_⟩
  · intro n1 n2 n3 n4 n5 n6
    rw [hfold]
    simp [n1, n2, n3, n4, n5, n6]
  · intro m1 n2 n3 n4 n5 n6
    rw [hfold]
    simp [m1, n2, n3, n4, n5, n6]
  · intro n1 m2 n3 n4 n5 n6
    rw [hfold]
    simp [n1, m2, n3, n4, n5, n6]
  · intro n1 n2 m3 n4 n5 n6
    rw [hfold]
    simp [n1, n2, m3, n4, n5, n6]
  · intro n1 n2 n3 m4 n5 n6
    rw [hfold]
    simp [n1, n2, n3, m4, n5, n6]
  · intro n1 n2 n3 n4 m5 n6
    rw [hfold]
    simp [n1, n2, n3, n4, m5, n6]
  · intro m6
    rw [hfold]
    simp [m6]
  · rw [hfold]
    split_ifs <;> simp

/-- Closed instance of regiao_classificacao_amended: each table case and
the no-table default discharged at a concrete neighborhood. -/
theorem regiao_classificacao_amended_witness :
    classifyRegiao (some "Butantã") = "Zona Oeste" ∧
    classifyRegiao (some "Vila Baby") = "Outras Localidades" ∧
    classifyRegiao (some "Bairro Inexistente") = "Outra Região" :=
  ⟨(regiao_classificacao_amended "Butantã").2.2.2.2.1 (by decide) (by decide)
      (by decide) (by decide) (by decide) (by decide),
   (regiao_classificacao_amended "Vila Baby").2.2.2.2.2.2.1 (by decide),
   (regiao_classificacao_amended "Bairro Inexistente").1 (by decide) (by decide)
      (by decide) (by decide) (by decide) (by decide)⟩

end SSPxCosecurity

namespace SSPxCosecurity

theorem contagemEm_reindex (l dom : List Int) (h : Int) (hmem : h ∈ dom) :
    contagemEm (reindexFill (valueCounts l) dom) h = l.count h := by
  unfold contagemEm
  rw [reindex_valueCounts, lookup_map_pair]
  simp [hmem]

/-- C4: appending one row at hour 0 that passes the current filters (with
complete coordinates) leaves the occurrence total count and the occurrence
hourly histogram unchanged, yet lands in the filtered occurrence table
(the base of the density map and the category mode) and raises the
occurrence density-map mass by one; appending an hour-0 event row raises
the event total, the event histogram bin at 0 and the event map mass by
one, so no events aggregation excludes hour 0. -/
theorem horaZero_escopo_exclusao (sel : Selecao) (rows : List CrimRow)
    (evs : List EventRow) (r : CrimRow) (e : EventRow) (la lo : Int)
    (hr : matchesCrim sel r = true) (hr0 : r.hora = 0)
    (hla : r.latitude = some la) (hlo : r.longitude = some lo)
    (he : matchesEventos sel e = true) (he0 : e.hora = 0) :
    totalOcorrencias sel (rows ++ [r]) = totalOcorrencias sel rows ∧
    ocorrenciasPorHoraCrim sel (rows ++ [r]) = ocorrenciasPorHoraCrim sel rows ∧
    filtrarCrim sel (rows ++ [r]) = filtrarCrim sel rows ++ [r] ∧
    massa (contagemMapaCrim sel (rows ++ [r])) = massa (contagemMapaCrim sel rows) + 1 ∧
    filtrarEventos sel (evs ++ [e]) = filtrarEventos sel evs ++ [e] ∧
    totalEventos sel (evs ++ [e]) = totalEventos sel evs + 1 ∧
    contagemEm (contagemHoraEventos sel (evs ++ [e])) 0 =
      contagemEm (contagemHoraEventos sel evs) 0 + 1 ∧
    massa (contagemMapaEventos sel (evs ++ [e])) =
      massa (contagemMapaEventos sel evs) + 1 := by
  have hfc : filtrarCrim sel (rows ++ [r]) = filtrarCrim sel rows ++ [r] := by
    rw [filtrarCrim_eq_filter, filtrarCrim_eq_filter, List.filter_append]
    simp [hr]
  have hsz : semHoraZero (filtrarCrim sel rows ++ [r]) = semHoraZero (filtrarCrim sel rows) := by
    unfold semHoraZero
    rw [List.filter_append]
    simp [hr0]
  have hmassC : ∀ rs, massa (contagemMapaCrim sel rs) =
      (coordsCrim (filtrarCrim sel rs)).length := by
    intro rs
    exact massa_grupos _
  have hcoords : coordsCrim (filtrarCrim sel (rows ++ [r])) =
      coordsCrim (filtrarCrim sel rows) ++ [(la, lo)] := by
    rw [hfc]
    unfold coordsCrim
    rw [List.filterMap_append]
    simp [hla, hlo]
  have hfe : filtrarEventos sel (evs ++ [e]) = filtrarEventos sel evs ++ [e] := by
    rw [filtrarEventos_eq_filter, filtrarEventos_eq_filter, List.filter_append]
    simp [he]
  have hmassE : ∀ es, massa (contagemMapaEventos sel es) = (filtrarEventos sel es).length := by
    intro es
    unfold contagemMapaEventos
    rw [massa_grupos, List.length_map]
  refine ⟨?_, ?_, hfc, ?_, hfe, ?_, ?_, ?_⟩
  · unfold totalOcorrencias
    rw [hfc, hsz]
  · unfold ocorrenciasPorHoraCrim
    rw [hfc, hsz]
  · rw [hmassC, hmassC, hcoords, List.length_append]
    rfl
  · unfold totalEventos
    rw [hfe, List.length_append]
    rfl
  · unfold contagemHoraEventos
    rw [contagemEm_reindex _ _ _ (by decide), contagemEm_reindex _ _ _ (by decide),
      hfe, List.map_append, List.count_append]
    simp [he0]
  · rw [hmassE, hmassE, hfe, List.length_append]
    rfl

/-- Closed instance of horaZero_escopo_exclusao at the sample hour-0
rows under the empty selection. -/
theorem horaZero_escopo_exclusao_witness :
    totalOcorrencias selVazia ([] ++ [crimExemploHoraZero]) = totalOcorrencias selVazia [] ∧
    massa (contagemMapaCrim selVazia ([] ++ [crimExemploHoraZero])) =
      massa (contagemMapaCrim selVazia []) + 1 ∧
    totalEventos selVazia ([] ++ [eventoExemploHoraZero]) =
      totalEventos selVazia [] + 1 ∧
    contagemEm (contagemHoraEventos selVazia ([] ++ [eventoExemploHoraZero])) 0 =
      contagemEm (contagemHoraEventos selVazia []) 0 + 1 := by
  have h := horaZero_escopo_exclusao selVazia [] [] crimExemploHoraZero
    eventoExemploHoraZero 10 20 (by decide) rfl rfl rfl (by decide) rfl
  exact ⟨h.1, h.2.2.2.1, h.2.2.2.2.2.1, h.2.2.2.2.2.2.1⟩

end SSPxCosecurity

namespace SSPxCosecurity

theorem mem_domHorasCrim (h : Int) : h ∈ domHorasCrim ↔ 1 ≤ h ∧ h ≤ 23 := by
  unfold domHorasCrim
  rw [List.mem_map]
  constructor
  · rintro ⟨i, hi, hEq⟩
    rw [List.mem_range] at hi
    omega
  · rintro ⟨h1, h2⟩
    refine ⟨(h - 1).toNat, ?_, ?_⟩
    · rw [List.mem_range]
      omega
    · show (((h - 1).toNat : Int) + 1) = h
      omega

theorem mem_domHorasEventos (h : Int) : h ∈ domHorasEventos ↔ 0 ≤ h ∧ h ≤ 23 := by
  unfold domHorasEventos
  rw [List.mem_map]
  constructor
  · rintro ⟨i, hi, hEq⟩
    rw [List.mem_range] at hi
    omega
  · rintro ⟨h1, h2⟩
    refine ⟨h.toNat, ?_, ?_⟩
    · rw [List.mem_range]
      omega
    · show ((h.toNat : Int)) = h
      omega

/-- C5 refuted as stated: the occurrence hourly histogram does not have 24
entries; on the unconstrained selection over an empty table it has 23. -/
theorem histograma_24_counterexample :
    ¬ ((ocorrenciasPorHoraCrim selVazia []).length = 24) := by decide

/-- C5 amended: histogram sizes are fixed and data-independent with
zero-fill, but they differ per pipeline: the occurrence histogram has
exactly 23 entries covering hours 1 to 23 (hour 0 excluded), the event
histogram exactly 24 entries covering hours 0 to 23; every entry carries
the exact row count of its hour within the relevant filtered set, hence 0
for absent hours however sparse the data. -/
theorem histograma_forma_amended (sel : Selecao) (rows : List CrimRow)
    (evs : List EventRow) :
    (ocorrenciasPorHoraCrim sel rows).length = 23 ∧
    (contagemHoraEventos sel evs).length = 24 ∧
    (∀ p ∈ ocorrenciasPorHoraCrim sel rows, 1 ≤ p.1 ∧ p.1 ≤ 23 ∧
      p.2 = ((semHoraZero (filtrarCrim sel rows)).map (fun r => r.hora)).count p.1) ∧
    (∀ h : Int, 1 ≤ h → h ≤ 23 →
      (h, ((semHoraZero (filtrarCrim sel rows)).map (fun r => r.hora)).count h) ∈
        ocorrenciasPorHoraCrim sel rows) ∧
    (∀ p ∈ contagemHoraEventos sel evs, 0 ≤ p.1 ∧ p.1 ≤ 23 ∧
      p.2 = ((filtrarEventos sel evs).map (fun r => r.hora)).count p.1) ∧
    (∀ h : Int, 0 ≤ h → h ≤ 23 →
      (h, ((filtrarEventos sel evs).map (fun r => r.hora)).count h) ∈
        contagemHoraEventos sel evs) := by
  refine ⟨?_, ?_, ?_, ?_, ?_, ?_⟩
  · unfold ocorrenciasPorHoraCrim
    rw [reindex_valueCounts, List.length_map]
    unfold domHorasCrim
    rw [List.length_map, List.length_range]
  · unfold contagemHoraEventos
    rw [reindex_valueCounts, List.length_map]
    unfold domHorasEventos
    rw [List.length_map, List.length_range]
  · intro p hp
    unfold ocorrenciasPorHoraCrim at hp
    rw [reindex_valueCounts] at hp
    obtain ⟨h, hh, rfl⟩ := List.mem_map.mp hp
    obtain ⟨h1, h2⟩ := (mem_domHorasCrim h).mp hh
    exact ⟨h1, h2, rfl⟩
  · intro h h1 h2
    unfold ocorrenciasPorHoraCrim
    rw [reindex_valueCounts]
    exact List.mem_map.mpr ⟨h, (mem_domHorasCrim h).mpr ⟨h1, h2⟩, rfl⟩
  · intro p hp
    unfold contagemHoraEventos at hp
    rw [reindex_valueCounts] at hp
    obtain ⟨h, hh, rfl⟩ := List.mem_map.mp hp
    obtain ⟨h1, h2⟩ := (mem_domHorasEventos h).mp hh
    exact ⟨h1, h2, rfl⟩
  · intro h h1 h2
    unfold contagemHoraEventos
    rw [reindex_valueCounts]
    exact List.mem_map.mpr ⟨h, (mem_domHorasEventos h).mpr ⟨h1, h2⟩, rfl⟩

/-- Closed instance of histograma_forma_amended: the member-wise bounds
and count equations discharged on the sample tables at hour 9. -/
theorem histograma_forma_amended_witness :
    (9, ((semHoraZero (filtrarCrim selVazia crimTabelaExemplo)).map
      (fun r => r.hora)).count 9) ∈ ocorrenciasPorHoraCrim selVazia crimTabelaExemplo ∧
    (0, ((filtrarEventos selVazia eventosTabelaExemplo).map
      (fun r => r.hora)).count 0) ∈ contagemHoraEventos selVazia eventosTabelaExemplo := by
  have h := histograma_forma_amended selVazia crimTabelaExemplo eventosTabelaExemplo
  exact ⟨h.2.2.2.1 9 (by decide) (by decide), h.2.2.2.2.2 0 (by decide) (by decide)⟩

/-- C6: filtering is monotonic; a selection extending another (keeping its
constraints, possibly adding more) never yields more rows in either
filtered table, and no filtered table exceeds the unconstrained count. -/
theorem filtragem_monotona (s s' : Selecao) (rows : List CrimRow)
    (evs : List EventRow) (h : Estende s s') :
    (filtrarCrim s' rows).length ≤ (filtrarCrim s rows).length ∧
    (filtrarCrim s rows).length ≤ rows.length ∧
    (filtrarEventos s' evs).length ≤ (filtrarEventos s evs).length ∧
    (filtrarEventos s evs).length ≤ evs.length := by
  refine ⟨?_, ?_, ?_, ?_⟩
  · rw [filtrarCrim_eq_filter, filtrarCrim_eq_filter]
    exact (List.monotone_filter_right rows (fun a ha => matchesCrim_mono h a ha)).length_le
  · rw [filtrarCrim_eq_filter]
    exact List.length_filter_le _ _
  · rw [filtrarEventos_eq_filter, filtrarEventos_eq_filter]
    exact (List.monotone_filter_right evs (fun a ha => matchesEventos_mono h a ha)).length_le
  · rw [filtrarEventos_eq_filter]
    exact List.length_filter_le _ _

/-- Closed instance of filtragem_monotona: the hour-9 refinement of the
empty selection on the sample tables. -/
theorem filtragem_monotona_witness :
    (filtrarCrim selHoraNove crimTabelaExemplo).length ≤
      (filtrarCrim selVazia crimTabelaExemplo).length ∧
    (filtrarCrim selVazia crimTabelaExemplo).length ≤ crimTabelaExemplo.length := by
  have h := filtragem_monotona selVazia selHoraNove crimTabelaExemplo eventosTabelaExemplo
    ⟨Or.inl rfl, Or.inl rfl, Or.inl rfl, Or.inl rfl, Or.inl rfl, Or.inl rfl, Or.inl rfl⟩
  exact ⟨h.1, h.2.1⟩

end SSPxCosecurity

namespace SSPxCosecurity

theorem crimCards_semHoraZero_nil (sel : Selecao) (rows : List CrimRow)
    (h : semHoraZero (filtrarCrim sel rows) = []) :
    totalOcorrencias sel rows = 0 ∧
    (∀ p ∈ ocorrenciasPorHoraCrim sel rows, p.2 = 0) ∧
    horarioTxtCrim sel rows = "N/A" := by
  have hzeros : ∀ p ∈ ocorrenciasPorHoraCrim sel rows, p.2 = 0 := by
    intro p hp
    unfold ocorrenciasPorHoraCrim at hp
    rw [h, reindex_valueCounts] at hp
    obtain ⟨x, _, rfl⟩ := List.mem_map.mp hp
    simp
  have hmax : maxContagem (ocorrenciasPorHoraCrim sel rows) = 0 :=
    maxContagem_eq_zero hzeros
  refine ⟨?_, hzeros, ?_⟩
  · unfold totalOcorrencias
    rw [h]
    rfl
  · simp [horarioTxtCrim, hmax]

/-- C7: under any selection whose filtered table is empty, the density map
output is the placeholder annotation, every histogram bar is zero, the
total-count card reads 0, and the most-frequent summaries (hour, category,
event name) read the not-applicable marker; stated for each pipeline. -/
theorem vazio_politica (sel : Selecao) (rows : List CrimRow) (evs : List EventRow) :
    (filtrarCrim sel rows = [] →
      figMapaCrim sel rows = FigMapa.avisoVazio "Nenhum dado encontrado para os filtros." ∧
      (∀ p ∈ ocorrenciasPorHoraCrim sel rows, p.2 = 0) ∧
      totalOcorrencias sel rows = 0 ∧
      horarioTxtCrim sel rows = "N/A" ∧
      naturezaFrequente sel rows = "N/A") ∧
    (filtrarEventos sel evs = [] →
      figMapaEventos sel evs =
        FigMapa.avisoVazio "Nenhum evento encontrado para os filtros selecionados." ∧
      (∀ p ∈ contagemHoraEventos sel evs, p.2 = 0) ∧
      totalEventos sel evs = 0 ∧
      horarioTxtEventos sel evs = "N/A" ∧
      topEvento sel evs = "N/A") := by
  constructor
  · intro hf
    have hsz : semHoraZero (filtrarCrim sel rows) = [] := by
      rw [hf]
      rfl
    obtain ⟨ht, hz, hn⟩ := crimCards_semHoraZero_nil sel rows hsz
    have hc : contagemMapaCrim sel rows = [] := by
      unfold contagemMapaCrim
      rw [hf]
      rfl
    refine ⟨?_, hz, ht, hn, ?_⟩
    · simp [figMapaCrim, hc]
    · simp [naturezaFrequente, hf]
  · intro hf
    have hc : contagemMapaEventos sel evs = [] := by
      unfold contagemMapaEventos
      rw [hf]
      rfl
    refine ⟨?_, ?_, ?_, ?_, ?_⟩
    · simp [figMapaEventos, hc]
    · intro p hp
      unfold contagemHoraEventos at hp
      rw [hf, reindex_valueCounts] at hp
      obtain ⟨x, _, rfl⟩ := List.mem_map.mp hp
      simp
    · unfold totalEventos
      rw [hf]
      rfl
    · simp [horarioTxtEventos, hf]
    · simp [topEvento, hf]

/-- Closed instance of vazio_politica on empty tables. -/
theorem vazio_politica_witness :
    figMapaCrim selVazia [] = FigMapa.avisoVazio "Nenhum dado encontrado para os filtros." ∧
    totalOcorrencias selVazia [] = 0 ∧
    horarioTxtCrim selVazia [] = "N/A" ∧
    naturezaFrequente selVazia [] = "N/A" ∧
    figMapaEventos selVazia [] =
      FigMapa.avisoVazio "Nenhum evento encontrado para os filtros selecionados." ∧
    totalEventos selVazia [] = 0 ∧
    horarioTxtEventos selVazia [] = "N/A" ∧
    topEvento selVazia [] = "N/A" := by
  have h := vazio_politica selVazia [] []
  have hc := h.1 (by decide)
  have he := h.2 (by decide)
  exact ⟨hc.1, hc.2.2.1, hc.2.2.2.1, hc.2.2.2.2, he.1, he.2.2.1, he.2.2.2.1, he.2.2.2.2⟩

/-- C10: whenever the hour filter is set to 0, the occurrence total-count
card reads 0, the occurrence hourly histogram is all zero and the
most-frequent-hour card reads the not-applicable marker, whatever the
data: the filter keeps only hour-0 rows and the occurrence pipeline then
excludes exactly those. -/
theorem filtroHoraZero_cartoes (sel : Selecao) (rows : List CrimRow)
    (h0 : sel.hora = some 0) :
    totalOcorrencias sel rows = 0 ∧
    (∀ p ∈ ocorrenciasPorHoraCrim sel rows, p.2 = 0) ∧
    horarioTxtCrim sel rows = "N/A" := by
  have hall : ∀ r ∈ filtrarCrim sel rows, r.hora = 0 := by
    intro r hr
    rw [filtrarCrim_eq_filter] at hr
    have hm := (List.mem_filter.mp hr).2
    unfold matchesCrim at hm
    simp only [h0, Bool.and_eq_true, and_assoc] at hm
    obtain ⟨_, _, _, hh, _, _⟩ := hm
    exact eq_of_beq hh
  have hsz : semHoraZero (filtrarCrim sel rows) = [] := by
    unfold semHoraZero
    rw [List.filter_eq_nil_iff]
    intro a ha
    simp [hall a ha]
  exact crimCards_semHoraZero_nil sel rows hsz

/-- Closed instance of filtroHoraZero_cartoes on the sample table. -/
theorem filtroHoraZero_cartoes_witness :
    totalOcorrencias selHoraZero crimTabelaExemplo = 0 ∧
    horarioTxtCrim selHoraZero crimTabelaExemplo = "N/A" := by
  have h := filtroHoraZero_cartoes selHoraZero crimTabelaExemplo rfl
  exact ⟨h.1, h.2.2⟩

end SSPxCosecurity

namespace SSPxCosecurity

theorem mem_ordena {l : List String} {x : String} : x ∈ ordena l ↔ x ∈ l :=
  (List.perm_insertionSort _ l).mem_iff

theorem lookup_mem_snd (l : List (Nat × String)) (k : Nat) (v : String)
    (h : l.lookup k = some v) : v ∈ l.map (fun p => p.2) := by
  induction l with
  | nil => simp [List.lookup] at h
  | cons a t ih =>
    cases hbk : (k == a.1) with
    | true =>
      simp [List.lookup, hbk] at h
      simp [h]
    | false =>
      simp [List.lookup, hbk] at h
      simp [ih h]

/-- C8: the filter option sets computed at startup: neighborhoods and
cities are the sorted duplicate-free union over both normalized tables,
the hour options are exactly the fixed range 0 to 23 independent of the
data, every month option is a name from the fixed 12-entry month table,
and categories and event names come only from their own dataset. -/
theorem opcoes_filtros (crim : List CrimRow) (evs : List EventRow) :
    (∀ x, x ∈ bairrosUnicos crim evs ↔
      some x ∈ crim.map (fun r => r.bairro) ∨ some x ∈ evs.map (fun r => r.bairro)) ∧
    (bairrosUnicos crim evs).Sorted (fun a b => a ≤ b) ∧
    (bairrosUnicos crim evs).Nodup ∧
    (∀ x, x ∈ cidadesUnicas crim evs ↔
      x ∈ crim.map (fun r => r.cidade) ∨ some x ∈ evs.map (fun r => r.cidade)) ∧
    (∀ x, x ∈ naturezasUnicas crim ↔ some x ∈ crim.map (fun r => r.natureza)) ∧
    (∀ x, x ∈ eventosUnicos evs ↔ some x ∈ evs.map (fun r => r.eventoNome)) ∧
    horasUnicas.length = 24 ∧
    (∀ h : Int, h ∈ horasUnicas ↔ 0 ≤ h ∧ h ≤ 23) ∧
    (∀ x ∈ mesesUnicos crim, x ∈ nomesMeses.map (fun p => p.2)) := by
  refine ⟨?_, ?_, ?_, ?_, ?_, ?_, ?_, ?_, ?_⟩
  · intro x
    simp only [bairrosUnicos, mem_ordena, List.mem_dedup, List.mem_append,
      List.mem_filterMap, List.mem_map]
  · exact List.sorted_insertionSort _ _
  · exact ((List.perm_insertionSort _ _).nodup_iff).mpr (List.nodup_dedup _)
  · intro x
    simp only [cidadesUnicas, mem_ordena, List.mem_dedup, List.mem_append,
      List.mem_filterMap, List.mem_map]
  · intro x
    simp only [naturezasUnicas, mem_ordena, List.mem_dedup, List.mem_filterMap,
      List.mem_map]
  · intro x
    simp only [eventosUnicos, mem_ordena, List.mem_dedup, List.mem_filterMap,
      List.mem_map]
  · simp [horasUnicas]
  · intro h
    unfold horasUnicas
    rw [List.mem_map]
    constructor
    · rintro ⟨i, hi, hEq⟩
      rw [List.mem_range] at hi
      omega
    · rintro ⟨h1, h2⟩
      refine ⟨h.toNat, ?_, ?_⟩
      · rw [List.mem_range]
        omega
      · show ((h.toNat : Int)) = h
        omega
  · intro x hx
    unfold mesesUnicos at hx
    obtain ⟨m, _, hl⟩ := List.mem_filterMap.mp hx
    exact lookup_mem_snd _ _ _ hl

/-- Closed instance of opcoes_filtros on the sample tables: a
neighborhood option, an hour option, and a month option name. -/
theorem opcoes_filtros_witness :
    "Moema" ∈ bairrosUnicos crimTabelaExemplo eventosTabelaExemplo ∧
    (5 : Int) ∈ horasUnicas ∧
    "Fevereiro" ∈ nomesMeses.map (fun p => p.2) := by
  have h := opcoes_filtros crimTabelaExemplo eventosTabelaExemplo
  refine ⟨(h.1 "Moema").mpr (Or.inl (by decide)), ?_, ?_⟩
  · exact (h.2.2.2.2.2.2.2.1 5).mpr (by decide)
  · exact h.2.2.2.2.2.2.2.2 "Fevereiro" (by decide)

end SSPxCosecurity

namespace SSPxCosecurity

theorem filtrarCrim_append_single (sel : Selecao) (rows : List CrimRow) (r : CrimRow)
    (hmatch : matchesCrim sel r = true) :
    filtrarCrim sel (rows ++ [r]) = filtrarCrim sel rows ++ [r] := by
  rw [filtrarCrim_eq_filter, filtrarCrim_eq_filter, List.filter_append]
  simp [hmatch]

/-- C9 refuted for the hour-0 case it covers: a missing-coordinate row
whose extracted hour is the 0 sentinel is retained by the loader and
passes the empty selection, yet contributes nothing to the occurrence
total count and to no histogram bin, because the hour-zero exclusion runs
before both aggregations. -/
theorem coordenadas_ausentes_counterexample :
    crimExemploSemCoordHoraZero.latitude = none ∧
    matchesCrim selVazia crimExemploSemCoordHoraZero = true ∧
    filtrarCrim selVazia [crimExemploSemCoordHoraZero] = [crimExemploSemCoordHoraZero] ∧
    totalOcorrencias selVazia [crimExemploSemCoordHoraZero] = 0 ∧
    (∀ p ∈ ocorrenciasPorHoraCrim selVazia [crimExemploSemCoordHoraZero], p.2 = 0) := by
  decide

/-- C9 amended: the criminal loader drops exactly the rows whose date
fails to parse, so a row with missing latitude or longitude is retained;
under any selection it passes, such a row always stays out of the density
map aggregate (the map drops coordinate-incomplete rows just before
grouping); it adds one to the occurrence total count and to its histogram
bin exactly when its hour is a real hour 1 to 23, while at the hour-0
sentinel it is excluded from the total like every hour-0 row. -/
theorem coordenadas_ausentes (cp : String → Option Int) (raw : List RawCrim)
    (sel : Selecao) (rows : List CrimRow) (r : CrimRow)
    (hmatch : matchesCrim sel r = true)
    (hcoord : r.latitude = none ∨ r.longitude = none) :
    (dfCriminal cp raw).length = (raw.filter (fun x => x.dataOcorrencia.isSome)).length ∧
    massa (contagemMapaCrim sel (rows ++ [r])) = massa (contagemMapaCrim sel rows) ∧
    (1 ≤ r.hora → r.hora ≤ 23 →
      totalOcorrencias sel (rows ++ [r]) = totalOcorrencias sel rows + 1 ∧
      contagemEm (ocorrenciasPorHoraCrim sel (rows ++ [r])) r.hora =
        contagemEm (ocorrenciasPorHoraCrim sel rows) r.hora + 1) ∧
    (r.hora = 0 → totalOcorrencias sel (rows ++ [r]) = totalOcorrencias sel rows) := by
  have hfc := filtrarCrim_append_single sel rows r hmatch
  have hcoords : coordsCrim (filtrarCrim sel rows ++ [r]) =
      coordsCrim (filtrarCrim sel rows) := by
    unfold coordsCrim
    rw [List.filterMap_append]
    rcases hcoord with hla | hlo
    · simp [hla]
    · cases hla2 : r.latitude <;> simp [hla2, hlo]
  refine ⟨?_, ?_, ?_, ?_⟩
  · induction raw with
    | nil => rfl
    | cons a t ih =>
      cases ha : a.dataOcorrencia with
      | none =>
        simp only [dfCriminal, List.filterMap_cons, List.filter_cons, ha]
        simpa [dfCriminal] using ih
      | some p =>
        cases p with
        | mk ano mes =>
          simp only [dfCriminal, List.filterMap_cons, List.filter_cons, ha, Option.isSome_some,
            if_true, List.length_cons]
          simpa [dfCriminal] using ih
  · have hmassC : ∀ rs, massa (contagemMapaCrim sel rs) =
        (coordsCrim (filtrarCrim sel rs)).length := by
      intro rs
      exact massa_grupos _
    rw [hmassC, hmassC, hfc, hcoords]
  · intro hh1 hh23
    have hrne : r.hora ≠ 0 := by omega
    have hsz : semHoraZero (filtrarCrim sel rows ++ [r]) =
        semHoraZero (filtrarCrim sel rows) ++ [r] := by
      unfold semHoraZero
      rw [List.filter_append]
      simp [hrne]
    constructor
    · unfold totalOcorrencias
      rw [hfc, hsz, List.length_append]
      rfl
    · have hmem : r.hora ∈ domHorasCrim := (mem_domHorasCrim _).mpr ⟨hh1, hh23⟩
      unfold ocorrenciasPorHoraCrim
      rw [contagemEm_reindex _ _ _ hmem, contagemEm_reindex _ _ _ hmem, hfc, hsz,
        List.map_append, List.count_append]
      simp
  · intro h0
    have hsz0 : semHoraZero (filtrarCrim sel rows ++ [r]) =
        semHoraZero (filtrarCrim sel rows) := by
      unfold semHoraZero
      rw [List.filter_append]
      simp [h0]
    unfold totalOcorrencias
    rw [hfc, hsz0]

/-- Closed instance of coordenadas_ausentes: the sample raw table, the
hour-9 coordinate-free row (counted), and the hour-0 coordinate-free row
(excluded), under the empty selection. -/
theorem coordenadas_ausentes_witness :
    (dfCriminal (fun _ => none) rawTabelaExemplo).length =
      (rawTabelaExemplo.filter (fun x => x.dataOcorrencia.isSome)).length ∧
    totalOcorrencias selVazia ([] ++ [crimExemploSemCoord]) =
      totalOcorrencias selVazia [] + 1 ∧
    massa (contagemMapaCrim selVazia ([] ++ [crimExemploSemCoord])) =
      massa (contagemMapaCrim selVazia []) ∧
    totalOcorrencias selVazia ([] ++ [crimExemploSemCoordHoraZero]) =
      totalOcorrencias selVazia [] := by
  have h := coordenadas_ausentes (fun _ => none) rawTabelaExemplo selVazia []
    crimExemploSemCoord (by decide) (Or.inl rfl)
  have h0 := coordenadas_ausentes (fun _ => none) rawTabelaExemplo selVazia []
    crimExemploSemCoordHoraZero (by decide) (Or.inl rfl)
  exact ⟨h.1, (h.2.2.1 (by decide) (by decide)).1, h.2.1, h0.2.2.2 rfl⟩

end SSPxCosecurity
